import Mathlib

/-!
Shallow embedding of `test-server.py`, a minimal static-file HTTP test
server: a port-scanning bind loop (`main`) and a request handler
(`TestServerHandler`) subclassing the standard static file responder,
adding CORS headers and a timestamped access log.
-/

namespace TestServer

/-- Outcome of `socketserver.TCPServer(("", port), TestServerHandler)`:
either the constructor binds and returns a server, or it raises
`OSError` carrying an errno and a message (the `str(e)` text). -/
inductive BindResult where
  | ok
  | oserror (errno : Nat) (msg : String)
deriving DecidableEq, Repr

/-- Observable side effects of `main` before the serve loop: a line
printed to standard output, or `os.chdir` to a directory. -/
inductive Event where
  | out (line : String)
  | chdir (dir : String)
deriving DecidableEq, Repr

/-- How the port-scan loop of `main` ends: either control is handed to
`httpd.serve_forever()` on a bound port, or the process exits via
`sys.exit(code)`. -/
inductive Outcome where
  | serving (port : Nat)
  | exited (code : Nat)
deriving DecidableEq, Repr

/-- `PORT = 8080` in `main`. -/
def PORT : Nat := 8080

/-- `range(PORT, PORT + 10)` generalised over the base port: the ten
candidate ports tried in increasing order. -/
def candidatePorts (base : Nat) : List Nat :=
  [base, base + 1, base + 2, base + 3, base + 4,
   base + 5, base + 6, base + 7, base + 8, base + 9]

/-- The events of a successful bind on `port`: the three startup prints
(`print(f"Starting test server at http://localhost:{port}/")` etc.)
followed by `os.chdir(script_dir)`, in program order. -/
def startupEvents (scriptDir : String) (port : Nat) : List Event :=
  [ .out s!"Starting test server at http://localhost:{port}/",
    .out s!"Test page available at: http://localhost:{port}/test-elements.html",
    .out "Press Ctrl+C to stop the server",
    .chdir scriptDir ]

/-- `print(f"Port {port} is busy, trying {port + 1}")`. -/
def busyEvent (port : Nat) : Event :=
  .out s!"Port {port} is busy, trying {port + 1}"

/-- `print(f"Error starting server on port {port}: {e}")`. -/
def bindErrorEvent (port : Nat) (msg : String) : Event :=
  .out s!"Error starting server on port {port}: {msg}"

/-- The `for port in range(...)` loop of `main`, with its `try/except
OSError` body and `for/else` clause, as a function of the environment
`env` giving each port's bind result. Returns the emitted events in
order and the loop's outcome: a successful bind prints the banner,
changes directory and enters the serve loop; `errno == 98` prints the
busy line and continues with the next candidate; any other `OSError`
prints the error and exits with status 1; an exhausted scan (the `else`
clause) prints the failure line and exits with status 1. -/
def bindLoop (scriptDir : String) (env : Nat → BindResult) :
    List Nat → List Event × Outcome
  | [] => ([.out "Could not find an available port"], .exited 1)
  | p :: rest =>
    match env p with
    | .ok => (startupEvents scriptDir p, .serving p)
    | .oserror e msg =>
      if e = 98 then
        let r := bindLoop scriptDir env rest
        (busyEvent p :: r.1, r.2)
      else
        ([bindErrorEvent p msg], .exited 1)

/-- `main`: scan the candidate ports starting from `PORT`. -/
def main (scriptDir : String) (env : Nat → BindResult) : List Event × Outcome :=
  bindLoop scriptDir env (candidatePorts PORT)

/-- Exceptions relevant to `main`'s `try` block: `OSError` raised by the
bind, and `KeyboardInterrupt` delivered during `serve_forever()`. -/
inductive PyExc where
  | osError (errno : Nat) (msg : String)
  | keyboardInterrupt
deriving DecidableEq, Repr

/-- The single `except OSError` clause in `main` handles an exception
exactly when it is an `OSError`; a `KeyboardInterrupt` is not caught
anywhere in the program. -/
def mainCatches : PyExc → Bool
  | .osError _ _ => true
  | .keyboardInterrupt => false

/-- How the whole process ends: `sys.exit(code)`, or termination by an
exception that propagated uncaught out of `main` (CPython then prints a
traceback and exits with a non-zero status). -/
inductive Termination where
  | exited (code : Nat)
  | uncaught (e : PyExc)
deriving DecidableEq, Repr

/-- A run of `main` in which an interrupt signal arrives while
`serve_forever()` is running: if the scan binds some port, the
`KeyboardInterrupt` raised in the serve loop matches no `except` clause
(`mainCatches`), so it unwinds the `with` block (closing the socket)
and terminates the process uncaught; otherwise the scan already exited
via `sys.exit`. -/
def runWithInterrupt (scriptDir : String) (env : Nat → BindResult) :
    List Event × Termination :=
  match main scriptDir env with
  | (evs, .serving _) => (evs, .uncaught .keyboardInterrupt)
  | (evs, .exited c) => (evs, .exited c)

/-- An HTTP response as observed by the client. -/
structure Response where
  status : Nat
  headers : List (String × String)
  body : String
deriving DecidableEq, Repr

/-- The three CORS headers sent by `TestServerHandler.end_headers`, in
the order of the three `self.send_header(...)` calls. -/
def corsHeaders : List (String × String) :=
  [("Access-Control-Allow-Origin", "*"),
   ("Access-Control-Allow-Methods", "GET, POST, OPTIONS"),
   ("Access-Control-Allow-Headers", "Content-Type")]

/-- `TestServerHandler.end_headers`: appends the three CORS headers to
the headers buffered so far, then `super().end_headers()` flushes the
buffer, yielding the response's final header list. -/
def end_headers (buffered : List (String × String)) : List (String × String) :=
  buffered ++ corsHeaders

/-- Modelled from the spec: the content-type inference of the inherited
static file responder (`SimpleHTTPRequestHandler.guess_type`, Python
standard library, not part of this repository): "correct content-type
inference (e.g., `.html` → `text/html`)". -/
def guessType (path : String) : String :=
  if path.endsWith ".html" then "text/html"
  else if path.endsWith ".js" then "text/javascript"
  else if path.endsWith ".css" then "text/css"
  else if path.endsWith ".json" then "application/json"
  else "application/octet-stream"

/-- Modelled from the spec: the inherited static-file responder
(`SimpleHTTPRequestHandler.do_GET`, Python standard library, not part of
this repository): maps the URL path to a file under the root directory,
returning 200 with the file content and inferred content type on a hit
and 404 on a miss; every response's headers pass through the overridden
`TestServerHandler.end_headers`. `fs` is the file system, mapping an
absolute path to the content of the file there, if any. -/
def staticResponse (root : String) (fs : String → Option String) (path : String) :
    Response :=
  match fs (root ++ path) with
  | some body =>
      { status := 200
        headers := end_headers
          [("Content-Type", guessType path),
           ("Content-Length", toString body.length)]
        body := body }
  | none =>
      { status := 404
        headers := end_headers [("Content-Type", "text/html;charset=utf-8")]
        body := "404 Not Found" }

/-- `TestServerHandler.__init__` passes
`directory=os.path.dirname(os.path.abspath(__file__))` to the superclass:
the served root is the script's own directory, whatever the process's
current working directory is. -/
def handlerDirectory (scriptDir cwd : String) : String := scriptDir

/-- A request handled by `TestServerHandler` constructed in a process
whose working directory is `cwd`. -/
def handleRequest (scriptDir cwd : String) (fs : String → Option String)
    (path : String) : Response :=
  staticResponse (handlerDirectory scriptDir cwd) fs path

/-- An HTTP request as seen by the access log. -/
structure Request where
  method : String
  path : String
  proto : String
deriving DecidableEq, Repr

/-- Modelled from the spec: the standard access-log summary
(`BaseHTTPRequestHandler.log_request`, Python standard library, not part
of this repository) formats the request line, status and size as
`"<method> <path> <proto>" <status> <size>`. -/
def standardLogLine (r : Request) (status size : String) : String :=
  "\"" ++ r.method ++ " " ++ r.path ++ " " ++ r.proto ++ "\" "
    ++ status ++ " " ++ size

/-- `TestServerHandler.log_message`: prints
`f"[{self.log_date_time_string()}] {format % args}"` — one line,
a bracketed timestamp followed by the formatted message. -/
def log_message (timestamp msg : String) : String :=
  "[" ++ timestamp ++ "] " ++ msg

/-- The access log produced by handling `reqs` in order: each handled
request r produces the single line
`log_message (timestamp r) (standardLogLine r (status r) (size r))`. -/
def accessLog (timestamp status size : Request → String)
    (reqs : List Request) : List String :=
  reqs.map fun r => log_message (timestamp r) (standardLogLine r (status r) (size r))

/-- Predicate picking out the `os.chdir` side effect among the events. -/
def isChdir : Event → Bool
  | .chdir _ => true
  | .out _ => false

/-- Claim C1: for every preferred port P that is free, the port binder
binds on the first attempt, the chosen port equals P, and the chosen
port and the test-page URL are printed to standard output (followed by
the chdir) before the serve loop starts. -/
theorem bind_first_attempt_when_preferred_free (scriptDir : String)
    (env : Nat → BindResult) (P : Nat) (hfree : env P = .ok) :
    bindLoop scriptDir env (candidatePorts P) =
      ([.out s!"Starting test server at http://localhost:{P}/",
        .out s!"Test page available at: http://localhost:{P}/test-elements.html",
        .out "Press Ctrl+C to stop the server",
        .chdir scriptDir], .serving P) := by
  simp [candidatePorts, bindLoop, hfree, startupEvents]

/-- Witness for C1 at P = 8080 with every port free. -/
theorem bind_first_attempt_when_preferred_free_witness :
    (fun _ : Nat => BindResult.ok) 8080 = BindResult.ok ∧
    bindLoop "/srv" (fun _ : Nat => BindResult.ok) (candidatePorts 8080) =
      ([.out "Starting test server at http://localhost:8080/",
        .out "Test page available at: http://localhost:8080/test-elements.html",
        .out "Press Ctrl+C to stop the server",
        .chdir "/srv"], .serving 8080) :=
  ⟨rfl, bind_first_attempt_when_preferred_free "/srv" (fun _ => BindResult.ok) 8080 rfl⟩

/-- Claim C3: when ports P and P+1 are busy (errno 98) and P+2 is free,
the scan emits exactly the two busy lines in increasing order and binds
on P+2; the trace contains nothing else between the attempts (no delay
or backoff exists in the loop). -/
theorem skip_two_busy_bind_third (scriptDir : String) (env : Nat → BindResult)
    (P : Nat) (m1 m2 : String)
    (h0 : env P = .oserror 98 m1)
    (h1 : env (P + 1) = .oserror 98 m2)
    (h2 : env (P + 2) = .ok) :
    bindLoop scriptDir env (candidatePorts P) =
      (busyEvent P :: busyEvent (P + 1) :: startupEvents scriptDir (P + 2),
       .serving (P + 2)) := by
  simp [candidatePorts, bindLoop, h0, h1, h2]

/-- Witness for C3 at P = 8080: 8080 and 8081 busy, 8082 free. -/
theorem skip_two_busy_bind_third_witness :
    (fun p : Nat => if p = 8080 then BindResult.oserror 98 "in use"
      else if p = 8081 then BindResult.oserror 98 "in use" else BindResult.ok) 8082
        = BindResult.ok ∧
    bindLoop "/srv"
      (fun p : Nat => if p = 8080 then BindResult.oserror 98 "in use"
        else if p = 8081 then BindResult.oserror 98 "in use" else BindResult.ok)
      (candidatePorts 8080) =
      (busyEvent 8080 :: busyEvent 8081 :: startupEvents "/srv" 8082,
       .serving 8082) :=
  ⟨rfl, skip_two_busy_bind_third "/srv" _ 8080 "in use" "in use" rfl rfl rfl⟩

/-- Claim C4: when all ten candidate ports 8080..8089 raise errno 98,
no bind succeeds; after the ten busy lines the loop's else-clause prints
the failure message and the process exits with the non-zero code 1. -/
theorem scan_exhausted_exits_nonzero (scriptDir : String) (env : Nat → BindResult)
    (h : ∀ p ∈ candidatePorts 8080, ∃ m, env p = BindResult.oserror 98 m) :
    bindLoop scriptDir env (candidatePorts 8080) =
      ((candidatePorts 8080).map busyEvent
         ++ [Event.out "Could not find an available port"],
       Outcome.exited 1) ∧
    (∀ q, (bindLoop scriptDir env (candidatePorts 8080)).2 ≠ Outcome.serving q) := by
  obtain ⟨m0, e0⟩ := h 8080 (by simp [candidatePorts])
  obtain ⟨m1, e1⟩ := h 8081 (by simp [candidatePorts])
  obtain ⟨m2, e2⟩ := h 8082 (by simp [candidatePorts])
  obtain ⟨m3, e3⟩ := h 8083 (by simp [candidatePorts])
  obtain ⟨m4, e4⟩ := h 8084 (by simp [candidatePorts])
  obtain ⟨m5, e5⟩ := h 8085 (by simp [candidatePorts])
  obtain ⟨m6, e6⟩ := h 8086 (by simp [candidatePorts])
  obtain ⟨m7, e7⟩ := h 8087 (by simp [candidatePorts])
  obtain ⟨m8, e8⟩ := h 8088 (by simp [candidatePorts])
  obtain ⟨m9, e9⟩ := h 8089 (by simp [candidatePorts])
  constructor
  · simp [candidatePorts, bindLoop, e0, e1, e2, e3, e4, e5, e6, e7, e8, e9]
  · intro q
    simp [candidatePorts, bindLoop, e0, e1, e2, e3, e4, e5, e6, e7, e8, e9]

/-- Witness for C4: every port raises errno 98. -/
theorem scan_exhausted_exits_nonzero_witness :
    (∀ p ∈ candidatePorts 8080,
      ∃ m, (fun _ : Nat => BindResult.oserror 98 "in use") p
        = BindResult.oserror 98 m) ∧
    bindLoop "/srv" (fun _ : Nat => BindResult.oserror 98 "in use")
      (candidatePorts 8080) =
      ((candidatePorts 8080).map busyEvent
         ++ [Event.out "Could not find an available port"],
       Outcome.exited 1) :=
  ⟨fun _ _ => ⟨"in use", rfl⟩,
   (scan_exhausted_exits_nonzero "/srv" (fun _ => BindResult.oserror 98 "in use")
     (fun _ _ => ⟨"in use", rfl⟩)).1⟩

/-- Claim C5: a bind failure whose errno is not 98 (e.g. permission
denied) prints the error line and exits with code 1 at once; the
remaining candidate ports (rest) are never attempted, whatever their
state. -/
theorem other_bind_error_fatal (scriptDir : String) (env : Nat → BindResult)
    (p : Nat) (rest : List Nat) (e : Nat) (m : String)
    (henv : env p = .oserror e m) (hne : e ≠ 98) :
    bindLoop scriptDir env (p :: rest) = ([bindErrorEvent p m], .exited 1) := by
  simp [bindLoop, henv, hne]

/-- Witness for C5: errno 13 (permission denied) on the first port with
a free port right after it. -/
theorem other_bind_error_fatal_witness :
    (fun p : Nat => if p = 8080
        then BindResult.oserror 13 "[Errno 13] Permission denied"
        else BindResult.ok) 8080
      = BindResult.oserror 13 "[Errno 13] Permission denied" ∧
    (13 : Nat) ≠ 98 ∧
    bindLoop "/srv"
      (fun p : Nat => if p = 8080
        then BindResult.oserror 13 "[Errno 13] Permission denied"
        else BindResult.ok)
      [8080, 8081] =
      ([bindErrorEvent 8080 "[Errno 13] Permission denied"], .exited 1) :=
  ⟨rfl, by decide,
   other_bind_error_fatal "/srv" _ 8080 [8081] 13 "[Errno 13] Permission denied"
     rfl (by decide)⟩

/-- Claim C9: the loop classifies a bind failure as port-in-use exactly
when the errno equals the literal 98: errno 98 logs the busy line and
continues the scan with the remaining ports, any other errno (including
other platforms' address-in-use values such as 48) exits with code 1. -/
theorem errno_98_is_the_port_in_use_test (scriptDir : String)
    (env : Nat → BindResult) (p : Nat) (rest : List Nat) (e : Nat) (m : String)
    (henv : env p = .oserror e m) :
    bindLoop scriptDir env (p :: rest) =
      if e = 98 then
        (busyEvent p :: (bindLoop scriptDir env rest).1,
         (bindLoop scriptDir env rest).2)
      else ([bindErrorEvent p m], .exited 1) := by
  by_cases he : e = 98 <;> simp [bindLoop, henv, he]

/-- Witness for C9: errno 48 (the macOS address-in-use value) is not
treated as port-in-use — the scan stops with exit code 1 even though the
next port is free. -/
theorem errno_98_is_the_port_in_use_test_witness :
    (fun p : Nat => if p = 8080 then BindResult.oserror 48 "[Errno 48] Address already in use"
      else BindResult.ok) 8080
      = BindResult.oserror 48 "[Errno 48] Address already in use" ∧
    bindLoop "/srv"
      (fun p : Nat => if p = 8080 then BindResult.oserror 48 "[Errno 48] Address already in use"
        else BindResult.ok)
      [8080, 8081] =
      (if (48 : Nat) = 98 then
        (busyEvent 8080
          :: (bindLoop "/srv"
               (fun p : Nat => if p = 8080 then BindResult.oserror 48 "[Errno 48] Address already in use"
                 else BindResult.ok) [8081]).1,
         (bindLoop "/srv"
           (fun p : Nat => if p = 8080 then BindResult.oserror 48 "[Errno 48] Address already in use"
             else BindResult.ok) [8081]).2)
      else ([bindErrorEvent 8080 "[Errno 48] Address already in use"], .exited 1)) :=
  ⟨rfl, errno_98_is_the_port_in_use_test "/srv" _ 8080 [8081] 48
    "[Errno 48] Address already in use" rfl⟩

/-- Claim C2: every response of the handler — the 200 hit and the 404
miss alike — carries the three CORS headers, exactly once each: the
final header list ends with the three CORS headers and no earlier
header uses one of their names. -/
theorem cors_headers_on_every_response (root : String)
    (fs : String → Option String) (path : String) :
    ∃ pre, (staticResponse root fs path).headers = pre ++ corsHeaders ∧
      ∀ p ∈ pre, p.1 ≠ "Access-Control-Allow-Origin" ∧
        p.1 ≠ "Access-Control-Allow-Methods" ∧
        p.1 ≠ "Access-Control-Allow-Headers" := by
  rcases h : fs (root ++ path) with _ | body
  · refine ⟨[("Content-Type", "text/html;charset=utf-8")],
      by simp [staticResponse, h, end_headers], ?_⟩
    intro p hp
    simp only [List.mem_singleton] at hp
    subst hp
    refine ⟨by decide, by decide, by decide⟩
  · refine ⟨[("Content-Type", guessType path),
      ("Content-Length", toString body.length)],
      by simp [staticResponse, h, end_headers], ?_⟩
    intro p hp
    simp only [List.mem_cons, List.mem_singleton, List.not_mem_nil, or_false] at hp
    rcases hp with hp | hp <;> subst hp <;>
      exact ⟨by simp, by simp, by simp⟩

/-- Witness for C2 at a concrete missing file (a 404 response). -/
theorem cors_headers_on_every_response_witness :
    ∃ pre, (staticResponse "/srv" (fun _ => none) "/missing.html").headers
        = pre ++ corsHeaders ∧
      ∀ p ∈ pre, p.1 ≠ "Access-Control-Allow-Origin" ∧
        p.1 ≠ "Access-Control-Allow-Methods" ∧
        p.1 ≠ "Access-Control-Allow-Headers" :=
  cors_headers_on_every_response "/srv" (fun _ => none) "/missing.html"

/-- Claim C6 counterexample evaluation: `main` catches only `OSError`,
so a `KeyboardInterrupt` delivered during `serve_forever()` propagates
uncaught; with every port free the run binds 8080 and then terminates
by the uncaught exception, not by an exit with status 0. -/
theorem interrupt_uncaught_not_zero_exit :
    mainCatches PyExc.keyboardInterrupt = false ∧
    runWithInterrupt "/srv" (fun _ : Nat => BindResult.ok) =
      (startupEvents "/srv" 8080, Termination.uncaught PyExc.keyboardInterrupt) ∧
    ∀ evs : List Event,
      runWithInterrupt "/srv" (fun _ : Nat => BindResult.ok)
        ≠ (evs, Termination.exited 0) := by
  refine ⟨rfl, rfl, ?_⟩
  intro evs h
  have h2 := congrArg Prod.snd h
  simp [runWithInterrupt, main, candidatePorts, bindLoop] at h2

/-- Claim C7: the served root is the script's own directory, whatever
the process working directory is: the handler's directory parameter
equals the script directory, the response does not depend on the
working directory, a path that exists under the script directory is
served with status 200, its content and its inferred content type, and
a nonexistent path yields 404. -/
theorem served_root_is_program_directory (scriptDir cwd : String)
    (fs : String → Option String) (path : String) :
    handlerDirectory scriptDir cwd = scriptDir ∧
    handleRequest scriptDir cwd fs path = handleRequest scriptDir scriptDir fs path ∧
    (∀ body, fs (scriptDir ++ path) = some body →
      (handleRequest scriptDir cwd fs path).status = 200 ∧
      (handleRequest scriptDir cwd fs path).body = body ∧
      ("Content-Type", guessType path) ∈ (handleRequest scriptDir cwd fs path).headers) ∧
    (fs (scriptDir ++ path) = none →
      (handleRequest scriptDir cwd fs path).status = 404) := by
  refine ⟨rfl, rfl, ?_, ?_⟩
  · intro body hb
    simp [handleRequest, handlerDirectory, staticResponse, hb, end_headers]
  · intro hn
    simp [handleRequest, handlerDirectory, staticResponse, hn]

/-- Witness for C7: a one-file file system rooted at /srv, queried from
working directory /elsewhere; `.html` infers `text/html`. -/
theorem served_root_is_program_directory_witness :
    (fun q : String => if q = "/srv/test-elements.html"
        then some "<html>ok</html>" else none) ("/srv" ++ "/test-elements.html")
      = some "<html>ok</html>" ∧
    (handleRequest "/srv" "/elsewhere"
      (fun q : String => if q = "/srv/test-elements.html"
        then some "<html>ok</html>" else none) "/test-elements.html").status = 200 ∧
    (handleRequest "/srv" "/elsewhere"
      (fun q : String => if q = "/srv/test-elements.html"
        then some "<html>ok</html>" else none) "/test-elements.html").body
      = "<html>ok</html>" ∧
    ("Content-Type", guessType "/test-elements.html") ∈
      (handleRequest "/srv" "/elsewhere"
        (fun q : String => if q = "/srv/test-elements.html"
          then some "<html>ok</html>" else none) "/test-elements.html").headers :=
  ⟨by decide,
   (served_root_is_program_directory "/srv" "/elsewhere" _ "/test-elements.html").2.2.1
     "<html>ok</html>" (by decide)⟩

/-- Claim C8: handling a list of requests yields one log line per
request, in handling order, each line a bracketed timestamp followed by
the standard summary holding the method, path, protocol version and
status. -/
theorem one_timestamped_log_line_per_request (ts st sz : Request → String)
    (reqs : List Request) :
    (accessLog ts st sz reqs).length = reqs.length ∧
    accessLog ts st sz reqs = reqs.map (fun r =>
      "[" ++ ts r ++ "] "
        ++ ("\"" ++ r.method ++ " " ++ r.path ++ " " ++ r.proto ++ "\" "
              ++ st r ++ " " ++ sz r)) ∧
    ∀ i : Nat, (accessLog ts st sz reqs).get? i = (reqs.get? i).map (fun r =>
      log_message (ts r) (standardLogLine r (st r) (sz r))) := by
  refine ⟨by simp [accessLog], rfl, ?_⟩
  intro i
  simp [accessLog, List.get?_map]

/-- Witness for C8 on two concrete requests. -/
theorem one_timestamped_log_line_per_request_witness :
    accessLog (fun _ => "12/Oct/2026 10:00:00") (fun _ => "200") (fun _ => "17")
      [⟨"GET", "/test-elements.html", "HTTP/1.1"⟩, ⟨"GET", "/missing", "HTTP/1.1"⟩]
      = ["[12/Oct/2026 10:00:00] \"GET /test-elements.html HTTP/1.1\" 200 17",
         "[12/Oct/2026 10:00:00] \"GET /missing HTTP/1.1\" 200 17"] := by
  have h := (one_timestamped_log_line_per_request
    (fun _ => "12/Oct/2026 10:00:00") (fun _ => "200") (fun _ => "17")
    [⟨"GET", "/test-elements.html", "HTTP/1.1"⟩,
     ⟨"GET", "/missing", "HTTP/1.1"⟩]).2.1
  simpa using h

/-- Claim C10: the working-directory change happens exactly on a
successful bind — when the loop reaches the serve state the event trace
ends with the single `os.chdir(script_dir)` and no earlier event is a
chdir; when the loop exits without binding no chdir occurs at all; and
redundantly with this the handler's directory parameter is already the
script directory. -/
theorem chdir_exactly_on_successful_bind (scriptDir cwd : String)
    (env : Nat → BindResult) (ports : List Nat) :
    (∀ P, (bindLoop scriptDir env ports).2 = Outcome.serving P →
      ∃ pre, (bindLoop scriptDir env ports).1 = pre ++ [Event.chdir scriptDir] ∧
        ∀ ev ∈ pre, isChdir ev = false) ∧
    (∀ c, (bindLoop scriptDir env ports).2 = Outcome.exited c →
      ∀ ev ∈ (bindLoop scriptDir env ports).1, isChdir ev = false) ∧
    handlerDirectory scriptDir cwd = scriptDir := by
  induction ports with
  | nil =>
    refine ⟨?_, ?_, rfl⟩
    · intro P hP
      simp [bindLoop] at hP
    · intro c _ ev hev
      simp [bindLoop] at hev
      subst hev
      rfl
  | cons p rest ih =>
    obtain ⟨ih1, ih2, -⟩ := ih
    rcases henv : env p with _ | ⟨e, m⟩
    · refine ⟨?_, ?_, rfl⟩
      · intro P _
        refine ⟨[Event.out s!"Starting test server at http://localhost:{p}/",
                 Event.out s!"Test page available at: http://localhost:{p}/test-elements.html",
                 Event.out "Press Ctrl+C to stop the server"], ?_, ?_⟩
        · simp [bindLoop, henv, startupEvents]
        · intro ev hev
          simp only [List.mem_cons, List.not_mem_nil, or_false] at hev
          rcases hev with h | h | h <;> subst h <;> rfl
      · intro c hc
        simp [bindLoop, henv] at hc
    · by_cases he : e = 98
      · subst he
        refine ⟨?_, ?_, rfl⟩
        · intro P hP
          simp only [bindLoop, henv, if_pos rfl] at hP ⊢
          obtain ⟨pre, hpre, hfree⟩ := ih1 P hP
          refine ⟨busyEvent p :: pre, ?_, ?_⟩
          · simp [hpre]
          · intro ev hev
            rcases List.mem_cons.mp hev with h | h
            · subst h; rfl
            · exact hfree ev h
        · intro c hc
          simp only [bindLoop, henv, if_pos rfl] at hc ⊢
          intro ev hev
          rcases List.mem_cons.mp hev with h | h
          · subst h; rfl
          · exact ih2 c hc ev h
      · refine ⟨?_, ?_, rfl⟩
        · intro P hP
          simp [bindLoop, henv, he] at hP
        · intro c _ ev hev
          simp [bindLoop, henv, he] at hev
          subst hev
          rfl

/-- Witness for C10: with 8080 free the trace is the three prints then
the single chdir; with 8080 raising errno 13 no chdir occurs. -/
theorem chdir_exactly_on_successful_bind_witness :
    (∃ pre, (bindLoop "/srv" (fun _ : Nat => BindResult.ok) [8080]).1
        = pre ++ [Event.chdir "/srv"] ∧ ∀ ev ∈ pre, isChdir ev = false) ∧
    (∀ ev ∈ (bindLoop "/srv"
        (fun _ : Nat => BindResult.oserror 13 "denied") [8080]).1,
      isChdir ev = false) :=
  ⟨(chdir_exactly_on_successful_bind "/srv" "/elsewhere"
      (fun _ => BindResult.ok) [8080]).1 8080 rfl,
   (chdir_exactly_on_successful_bind "/srv" "/elsewhere"
      (fun _ => BindResult.oserror 13 "denied") [8080]).2.1 1 rfl⟩

end TestServer
